import Mathlib

/-!
Verification of the `/generate-app` request pipeline of the Webapp repository.

The server accepts `{ appName, websiteUrl }`, sanitizes the name, allocates a
per-request workspace directory, captures the page with a headless browser,
synthesizes seven application-shell files, zips the workspace, streams the
archive back, and removes the artifacts in the download callback.

The embedding below models the handler as a pure function of the request and
of an environment describing the outcomes of the external effects (capture,
file writes, archiving, sending).  Filesystem effects are recorded explicitly
in the resulting `Outcome`.
-/

namespace Webapp

/-! ### sanitize-filename

Faithful model of the `sanitize-filename` npm package (default replacement
`''`): strip illegal characters, control characters, all-dot names, Windows
reserved device names, trailing dots/spaces, then truncate to 255 UTF-8 bytes.
-/

def illegalChar (c : Char) : Bool :=
  c = '/' || c = '?' || c = '<' || c = '>' || c = '\\' || c = ':' ||
  c = '*' || c = '|' || c = '"'

def controlChar (c : Char) : Bool :=
  c.toNat ≤ 0x1f || (0x80 ≤ c.toNat && c.toNat ≤ 0x9f)

def isWinReservedBase (l : List Char) : Bool :=
  let w := l.map Char.toLower
  w = ['c', 'o', 'n'] || w = ['p', 'r', 'n'] || w = ['a', 'u', 'x'] ||
  w = ['n', 'u', 'l'] ||
  (match w with
   | ['c', 'o', 'm', d] => d.isDigit
   | ['l', 'p', 't', d] => d.isDigit
   | _ => false)

def winReserved (l : List Char) : Bool :=
  isWinReservedBase (l.takeWhile (fun c => !(c = '.')))

def truncateUtf8 : Nat → List Char → List Char
  | _, [] => []
  | maxB, c :: cs =>
    if c.utf8Size ≤ maxB then c :: truncateUtf8 (maxB - c.utf8Size) cs else []

def sanitizeList (l : List Char) : List Char :=
  let l1 := l.filter (fun c => !illegalChar c)
  let l2 := l1.filter (fun c => !controlChar c)
  let l3 := if l2.all (fun c => c = '.') && !l2.isEmpty then [] else l2
  let l4 := if winReserved l3 then [] else l3
  let l5 := (l4.reverse.dropWhile (fun c => c = '.' || c = ' ')).reverse
  truncateUtf8 255 l5

def sanitizeFilename (s : String) : String :=
  String.mk (sanitizeList s.data)

/-! ### Paths -/

def dirname : String := "/srv/webapp"

def pathJoin (a b : String) : String := a ++ "/" ++ b

def generatedAppsDir : String := pathJoin dirname "generated-apps"

def appDirPath (san uid : String) : String :=
  pathJoin generatedAppsDir (san ++ "-" ++ uid)

def zipFilePath (san uid : String) : String :=
  pathJoin generatedAppsDir (san ++ "-" ++ uid ++ ".zip")

/-! ### Bundle file templates (`generateAppFiles`) -/

def htmlDocA : String :=
  "\n<!DOCTYPE html>\n<html lang=\"en\">\n<head>\n    <meta charset=\"UTF-8\">\n    <meta name=\"viewport\" content=\"width=device-width, initial-scale=1.0\">\n    <title>"

def htmlDocB : String :=
  "</title>\n    <link rel=\"manifest\" href=\"manifest.json\">\n    <meta name=\"theme-color\" content=\"#000000\">\n    <link rel=\"stylesheet\" href=\"styles.css\">\n</head>\n<body>\n    <div id=\"app-content\">\n      "

def htmlDocC : String :=
  "\n    </div>\n    <script src=\"app.js\"></script>\n</body>\n</html>"

def indexHtml (appName content : String) : String :=
  htmlDocA ++ appName ++ htmlDocB ++ content ++ htmlDocC

def hexDigit (n : Nat) : Char :=
  if n < 10 then Char.ofNat (48 + n) else Char.ofNat (87 + n)

def jsonEscapeChar (c : Char) : String :=
  if c = '"' then "\\\""
  else if c = '\\' then "\\\\"
  else if c = '\x08' then "\\b"
  else if c = '\x09' then "\\t"
  else if c = '\x0a' then "\\n"
  else if c = '\x0c' then "\\f"
  else if c = '\x0d' then "\\r"
  else if c.toNat < 0x20 then
    String.mk ['\\', 'u', '0', '0', hexDigit (c.toNat / 16), hexDigit (c.toNat % 16)]
  else String.singleton c

def jsonStr (s : String) : String :=
  "\"" ++ String.join (s.data.map jsonEscapeChar) ++ "\""

def manifestJson (appName : String) : String :=
  "\x7b\n  \"name\": " ++ jsonStr appName ++
  ",\n  \"short_name\": " ++ jsonStr appName ++
  ",\n  \"start_url\": \"/\",\n  \"display\": \"standalone\",\n  \"background_color\": \"#ffffff\",\n  \"theme_color\": \"#000000\",\n  \"icons\": [\n    \x7b\n      \"src\": \"icon-192x192.png\",\n      \"sizes\": \"192x192\",\n      \"type\": \"image/png\"\n    \x7d,\n    \x7b\n      \"src\": \"icon-512x512.png\",\n      \"sizes\": \"512x512\",\n      \"type\": \"image/png\"\n    \x7d\n  ]\n\x7d"

def serviceWorkerJs (appName : String) : String :=
  "\nconst CACHE_NAME = \x27" ++ appName ++
  "-v1\x27;\nconst urlsToCache = [\n  \x27/\x27,\n  \x27/index.html\x27,\n  \x27/manifest.json\x27,\n  \x27/styles.css\x27,\n  \x27/app.js\x27,\n  \x27/icon-192x192.png\x27,\n  \x27/icon-512x512.png\x27\n];\n\nself.addEventListener(\x27install\x27, (event) => \x7b\n  event.waitUntil(\n    caches.open(CACHE_NAME)\n      .then((cache) => cache.addAll(urlsToCache))\n  );\n\x7d);\n\nself.addEventListener(\x27fetch\x27, (event) => \x7b\n  event.respondWith(\n    caches.match(event.request)\n      .then((response) => response || fetch(event.request))\n  );\n\x7d);"

def appJsSource : String :=
  "\nif (\x27serviceWorker\x27 in navigator) \x7b\n  window.addEventListener(\x27load\x27, () => \x7b\n    navigator.serviceWorker.register(\x27/sw.js\x27)\n      .then((registration) => \x7b\n        console.log(\x27Service Worker registered:\x27, registration);\n      \x7d)\n      .catch((error) => \x7b\n        console.log(\x27Service Worker registration failed:\x27, error);\n      \x7d);\n  \x7d);\n\x7d\n\n// Add any additional app-specific JavaScript here\n"

def stylesCss : String :=
  "\nbody \x7b\n  font-family: Arial, sans-serif;\n  line-height: 1.6;\n  margin: 0;\n  padding: 0;\n\x7d\n\n#app-content \x7b\n  max-width: 1200px;\n  margin: 0 auto;\n  padding: 20px;\n\x7d\n\n/* Add any additional styles here */\n"

/-- File contents are either text written with `fs.writeFile` or a copy of a
template file made with `fs.copyFile`. -/
inductive FileData
  | text (contents : String)
  | copiedFrom (sourcePath : String)
  deriving DecidableEq, Repr

/-- The fixed manifest of files `generateAppFiles` writes into the workspace,
in write order. -/
def bundleFiles (appName content : String) : List (String × FileData) :=
  [("index.html", .text (indexHtml appName content)),
   ("manifest.json", .text (manifestJson appName)),
   ("sw.js", .text (serviceWorkerJs appName)),
   ("app.js", .text appJsSource),
   ("styles.css", .text stylesCss),
   ("icon-192x192.png", .copiedFrom (pathJoin dirname "placeholder-icon-192x192.png")),
   ("icon-512x512.png", .copiedFrom (pathJoin dirname "placeholder-icon-512x512.png"))]

/-! ### The request handler (`app.post` on `/generate-app`) -/

/-- A JSON request body; each field is absent (`none`) or a string. -/
structure Request where
  appName : Option String
  websiteUrl : Option String
  deriving DecidableEq, Repr

/-- JavaScript falsiness of an optional string field: absent or `""`. -/
def falsyStr : Option String → Bool
  | none => true
  | some s => s == ""

/-- Outcome of `page.goto` + `page.content`: the serialized markup, or a
navigation error, or a timeout. -/
inductive CaptureOutcome
  | success (content : String)
  | navigationError
  | timedOut
  deriving DecidableEq, Repr

/-- The options object passed to `page.goto`. -/
structure GotoOptions where
  waitUntil : String
  timeoutMs : Nat
  deriving DecidableEq, Repr

def pageGotoOptions : GotoOptions :=
  { waitUntil := "networkidle0", timeoutMs := 60000 }

/-- Environment: outcomes of the external effects of one request.
`writeFailIdx = some i` means the `i`-th file write of `generateAppFiles`
throws, after the first `i` files were written; `none` means all writes
succeed.  `archiveOk` and `sendOk` are the outcomes of `createZipArchive`
and of streaming the file in `res.download`. -/
structure Env where
  uniqueId : String
  capture : CaptureOutcome
  writeFailIdx : Option (Fin 7)
  archiveOk : Bool
  sendOk : Bool
  deriving DecidableEq, Repr

inductive ResBody
  | jsonError (msg : String)
  | fileDownload (path filename : String)
  deriving DecidableEq, Repr

structure HttpResponse where
  status : Nat
  body : ResBody
  deriving DecidableEq, Repr

/-- Everything observable about one request: the HTTP response, which
filesystem artifacts were created, which pipeline stages ran, and which
artifacts are still on disk when the request ends. -/
structure Outcome where
  response : HttpResponse
  createdDirs : List String
  workspaceFiles : List (String × FileData)
  zipEntries : Option (List (String × FileData))
  synthesisReached : Bool
  archiveReached : Bool
  captureOpts : Option GotoOptions
  leftoverDirs : List String
  leftoverFiles : List String
  deriving DecidableEq, Repr

/-- The `/generate-app` handler, translated line by line: validate, sanitize,
`ensureDir`, capture, `generateAppFiles`, `createZipArchive`, `res.download`
(whose callback does the cleanup), with the `catch` block answering
`500 Internal server error` and performing no cleanup. -/
def handleGenerateApp (req : Request) (env : Env) : Outcome :=
  if falsyStr req.appName || falsyStr req.websiteUrl then
    { response := ⟨400, .jsonError "Missing required fields"⟩,
      createdDirs := [], workspaceFiles := [], zipEntries := none,
      synthesisReached := false, archiveReached := false, captureOpts := none,
      leftoverDirs := [], leftoverFiles := [] }
  else
    let appName := req.appName.getD ""
    let sanitizedAppName := sanitizeFilename appName
    let appDir := appDirPath sanitizedAppName env.uniqueId
    match env.capture with
    | .navigationError =>
      { response := ⟨500, .jsonError "Internal server error"⟩,
        createdDirs := [appDir], workspaceFiles := [], zipEntries := none,
        synthesisReached := false, archiveReached := false,
        captureOpts := some pageGotoOptions,
        leftoverDirs := [appDir], leftoverFiles := [] }
    | .timedOut =>
      { response := ⟨500, .jsonError "Internal server error"⟩,
        createdDirs := [appDir], workspaceFiles := [], zipEntries := none,
        synthesisReached := false, archiveReached := false,
        captureOpts := some pageGotoOptions,
        leftoverDirs := [appDir], leftoverFiles := [] }
    | .success content =>
      let files := bundleFiles sanitizedAppName content
      match env.writeFailIdx with
      | some i =>
        { response := ⟨500, .jsonError "Internal server error"⟩,
          createdDirs := [appDir], workspaceFiles := files.take i.val,
          zipEntries := none, synthesisReached := true, archiveReached := false,
          captureOpts := some pageGotoOptions,
          leftoverDirs := [appDir], leftoverFiles := [] }
      | none =>
        let zipPath := zipFilePath sanitizedAppName env.uniqueId
        if env.archiveOk then
          if env.sendOk then
            { response := ⟨200, .fileDownload zipPath (sanitizedAppName ++ ".zip")⟩,
              createdDirs := [appDir], workspaceFiles := files,
              zipEntries := some files, synthesisReached := true,
              archiveReached := true, captureOpts := some pageGotoOptions,
              leftoverDirs := [], leftoverFiles := [] }
          else
            { response := ⟨500, .jsonError "Error sending file"⟩,
              createdDirs := [appDir], workspaceFiles := files,
              zipEntries := some files, synthesisReached := true,
              archiveReached := true, captureOpts := some pageGotoOptions,
              leftoverDirs := [], leftoverFiles := [] }
        else
          { response := ⟨500, .jsonError "Internal server error"⟩,
            createdDirs := [appDir], workspaceFiles := files,
            zipEntries := none, synthesisReached := true, archiveReached := true,
            captureOpts := some pageGotoOptions,
            leftoverDirs := [appDir], leftoverFiles := [zipPath] }

/-! ### Fragments of the markup template, for the embedding claims -/

def containerOpen : String := "<div id=\"app-content\">\n      "

def containerClose : String := "\n    </div>"

def manifestLinkTag : String := "<link rel=\"manifest\" href=\"manifest.json\">"

def stylesheetLinkTag : String := "<link rel=\"stylesheet\" href=\"styles.css\">"

def appScriptTag : String := "<script src=\"app.js\"></script>"

/-! ### Helper lemmas -/

set_option maxRecDepth 8192 in
theorem htmlDocB_split :
    htmlDocB = "</title>\n    " ++ manifestLinkTag ++
      "\n    <meta name=\"theme-color\" content=\"#000000\">\n    " ++
      stylesheetLinkTag ++ "\n</head>\n<body>\n    " ++ containerOpen := by
  decide

set_option maxRecDepth 8192 in
theorem htmlDocC_split :
    htmlDocC = containerClose ++ "\n    " ++ appScriptTag ++ "\n</body>\n</html>" := by
  decide

/-- After validation passes, every branch of the handler creates exactly the
one workspace directory `appDirPath (sanitize appName) uniqueId`. -/
theorem createdDirs_eq (req : Request) (env : Env)
    (hv : (falsyStr req.appName || falsyStr req.websiteUrl) = false) :
    (handleGenerateApp req env).createdDirs =
      [appDirPath (sanitizeFilename (req.appName.getD "")) env.uniqueId] := by
  cases hc : env.capture <;>
    cases hw : env.writeFailIdx <;>
      cases ha : env.archiveOk <;>
        cases hs : env.sendOk <;>
          simp [handleGenerateApp, hv, hc, hw, ha, hs]

theorem data_length_eq_of_length_eq {t1 t2 : String}
    (h : t1.length = t2.length) : t1.data.length = t2.data.length := h

/-- Appending distinct equal-length suffixes yields distinct lists. -/
theorem list_ne_of_suffix_ne {b1 b2 : List Char} (a1 a2 : List Char)
    (hlen : b1.length = b2.length) (hne : b1 ≠ b2) : a1 ++ b1 ≠ a2 ++ b2 :=
  fun h => hne (List.append_inj' h hlen).2

/-- Distinct unique tokens of equal length give distinct workspace paths. -/
theorem appDirPath_ne (s1 s2 t1 t2 : String)
    (hlen : t1.length = t2.length) (hne : t1 ≠ t2) :
    appDirPath s1 t1 ≠ appDirPath s2 t2 := by
  intro h
  have hd := congrArg String.data h
  simp only [appDirPath, pathJoin, String.data_append, ← List.append_assoc] at hd
  exact list_ne_of_suffix_ne _ _ (data_length_eq_of_length_eq hlen)
    (fun he => hne (String.ext he)) hd

/-- Distinct unique tokens of equal length give distinct archive paths. -/
theorem zipFilePath_ne (s1 s2 t1 t2 : String)
    (hlen : t1.length = t2.length) (hne : t1 ≠ t2) :
    zipFilePath s1 t1 ≠ zipFilePath s2 t2 := by
  intro h
  have hd := congrArg String.data h
  simp only [zipFilePath, pathJoin, String.data_append, ← List.append_assoc] at hd
  have h1 := (List.append_inj' hd rfl).1
  exact list_ne_of_suffix_ne _ _ (data_length_eq_of_length_eq hlen)
    (fun he => hne (String.ext he)) h1

/-! ### Claim theorems -/

/-- C4: for every request in which `appName` or `websiteUrl` is missing
(absent or empty), the response is status 400 with body
`{"error": "Missing required fields"}`, and no workspace directory is
created on disk for that request. -/
theorem missing_fields_400_no_workspace (req : Request) (env : Env)
    (h : (falsyStr req.appName || falsyStr req.websiteUrl) = true) :
    (handleGenerateApp req env).response =
      ⟨400, .jsonError "Missing required fields"⟩ ∧
    (handleGenerateApp req env).createdDirs = [] ∧
    (handleGenerateApp req env).leftoverDirs = [] ∧
    (handleGenerateApp req env).leftoverFiles = [] := by
  simp [handleGenerateApp, h]

theorem missing_fields_400_no_workspace_witness :
    (falsyStr (none : Option String) ||
      falsyStr (some "https://example.com")) = true ∧
    (handleGenerateApp ⟨none, some "https://example.com"⟩
        ⟨"u1", .success "<p>hi</p>", none, true, true⟩).response =
      ⟨400, .jsonError "Missing required fields"⟩ :=
  ⟨by decide,
   (missing_fields_400_no_workspace ⟨none, some "https://example.com"⟩
      ⟨"u1", .success "<p>hi</p>", none, true, true⟩ (by decide)).1⟩

/-- C5: for every request in which the capture stage fails (timeout or
navigation error), the pipeline aborts before any bundle files are written:
neither synthesis nor archiving is reached. -/
theorem capture_failure_aborts_before_writes (req : Request) (env : Env)
    (hv : (falsyStr req.appName || falsyStr req.websiteUrl) = false)
    (hc : env.capture = .navigationError ∨ env.capture = .timedOut) :
    (handleGenerateApp req env).synthesisReached = false ∧
    (handleGenerateApp req env).archiveReached = false ∧
    (handleGenerateApp req env).workspaceFiles = [] ∧
    (handleGenerateApp req env).zipEntries = none := by
  rcases hc with hc | hc <;> simp [handleGenerateApp, hv, hc]

theorem capture_failure_aborts_before_writes_witness :
    (falsyStr (some "My App") || falsyStr (some "https://example.com")) = false ∧
    (handleGenerateApp ⟨some "My App", some "https://example.com"⟩
        ⟨"u1", .timedOut, none, true, true⟩).workspaceFiles = [] :=
  ⟨by decide,
   (capture_failure_aborts_before_writes ⟨some "My App", some "https://example.com"⟩
      ⟨"u1", .timedOut, none, true, true⟩ (by decide) (Or.inr rfl)).2.2.1⟩

/-- C10: for every request whose pipeline reaches the capture stage, the
`page.goto` options are the fixed constant `waitUntil = "networkidle0"`,
`timeout = 60000` ms, independent of the request. -/
theorem capture_options_fixed (req : Request) (env : Env)
    (hv : (falsyStr req.appName || falsyStr req.websiteUrl) = false) :
    (handleGenerateApp req env).captureOpts = some pageGotoOptions ∧
    pageGotoOptions.waitUntil = "networkidle0" ∧
    pageGotoOptions.timeoutMs = 60000 := by
  refine ⟨?_, rfl, rfl⟩
  cases hc : env.capture <;>
    cases hw : env.writeFailIdx <;>
      cases ha : env.archiveOk <;>
        cases hs : env.sendOk <;>
          simp [handleGenerateApp, hv, hc, hw, ha, hs]

theorem capture_options_fixed_witness :
    (falsyStr (some "My App") || falsyStr (some "https://example.com")) = false ∧
    (handleGenerateApp ⟨some "My App", some "https://example.com"⟩
        ⟨"u1", .success "<p>hi</p>", none, true, true⟩).captureOpts =
      some pageGotoOptions :=
  ⟨by decide,
   (capture_options_fixed ⟨some "My App", some "https://example.com"⟩
      ⟨"u1", .success "<p>hi</p>", none, true, true⟩ (by decide)).1⟩

/-- C9: for every successful request, the response is status 200, its body
the archive file, with a download filename equal to the sanitized
application name followed by ".zip". -/
theorem success_response_download (req : Request) (env : Env) (content : String)
    (hv : (falsyStr req.appName || falsyStr req.websiteUrl) = false)
    (hc : env.capture = .success content) (hw : env.writeFailIdx = none)
    (ha : env.archiveOk = true) (hs : env.sendOk = true) :
    (handleGenerateApp req env).response =
      ⟨200, .fileDownload
        (zipFilePath (sanitizeFilename (req.appName.getD "")) env.uniqueId)
        (sanitizeFilename (req.appName.getD "") ++ ".zip")⟩ := by
  simp [handleGenerateApp, hv, hc, hw, ha, hs]

theorem success_response_download_witness :
    (falsyStr (some "My App") || falsyStr (some "https://example.com")) = false ∧
    (handleGenerateApp ⟨some "My App", some "https://example.com"⟩
        ⟨"u1", .success "<p>hi</p>", none, true, true⟩).response =
      ⟨200, .fileDownload (zipFilePath (sanitizeFilename "My App") "u1")
        (sanitizeFilename "My App" ++ ".zip")⟩ :=
  ⟨by decide,
   success_response_download ⟨some "My App", some "https://example.com"⟩
     ⟨"u1", .success "<p>hi</p>", none, true, true⟩ "<p>hi</p>"
     (by decide) rfl rfl rfl rfl⟩

/-- C6: for every successful request, the produced archive contains exactly
seven entries — the markup document, the manifest, the worker script, the
bootstrap script, the stylesheet, and the two icon images — and nothing
else. -/
theorem success_archive_exactly_seven_files (req : Request) (env : Env)
    (content : String)
    (hv : (falsyStr req.appName || falsyStr req.websiteUrl) = false)
    (hc : env.capture = .success content) (hw : env.writeFailIdx = none)
    (ha : env.archiveOk = true) (hs : env.sendOk = true) :
    (handleGenerateApp req env).zipEntries =
      some (bundleFiles (sanitizeFilename (req.appName.getD "")) content) ∧
    (bundleFiles (sanitizeFilename (req.appName.getD "")) content).map Prod.fst =
      ["index.html", "manifest.json", "sw.js", "app.js", "styles.css",
       "icon-192x192.png", "icon-512x512.png"] ∧
    (bundleFiles (sanitizeFilename (req.appName.getD "")) content).length = 7 := by
  refine ⟨?_, rfl, rfl⟩
  simp [handleGenerateApp, hv, hc, hw, ha, hs]

theorem success_archive_exactly_seven_files_witness :
    (falsyStr (some "My App") || falsyStr (some "https://example.com")) = false ∧
    (handleGenerateApp ⟨some "My App", some "https://example.com"⟩
        ⟨"u1", .success "<p>hi</p>", none, true, true⟩).zipEntries =
      some (bundleFiles (sanitizeFilename "My App") "<p>hi</p>") :=
  ⟨by decide,
   (success_archive_exactly_seven_files ⟨some "My App", some "https://example.com"⟩
      ⟨"u1", .success "<p>hi</p>", none, true, true⟩ "<p>hi</p>"
      (by decide) rfl rfl rfl rfl).1⟩

/-- C7: the workspace directory name is `sanitize(appName) ++ "-" ++ token`,
and any two requests with distinct equal-length unique tokens — in
particular two concurrent requests with the same appName — get distinct
workspace directories and distinct archive paths. -/
theorem workspace_naming_and_uniqueness (req1 req2 : Request) (env1 env2 : Env)
    (hv1 : (falsyStr req1.appName || falsyStr req1.websiteUrl) = false)
    (hv2 : (falsyStr req2.appName || falsyStr req2.websiteUrl) = false)
    (hlen : env1.uniqueId.length = env2.uniqueId.length)
    (hne : env1.uniqueId ≠ env2.uniqueId) :
    (handleGenerateApp req1 env1).createdDirs =
      [appDirPath (sanitizeFilename (req1.appName.getD "")) env1.uniqueId] ∧
    (handleGenerateApp req2 env2).createdDirs =
      [appDirPath (sanitizeFilename (req2.appName.getD "")) env2.uniqueId] ∧
    appDirPath (sanitizeFilename (req1.appName.getD "")) env1.uniqueId ≠
      appDirPath (sanitizeFilename (req2.appName.getD "")) env2.uniqueId ∧
    zipFilePath (sanitizeFilename (req1.appName.getD "")) env1.uniqueId ≠
      zipFilePath (sanitizeFilename (req2.appName.getD "")) env2.uniqueId :=
  ⟨createdDirs_eq req1 env1 hv1, createdDirs_eq req2 env2 hv2,
   appDirPath_ne _ _ _ _ hlen hne, zipFilePath_ne _ _ _ _ hlen hne⟩

theorem workspace_naming_and_uniqueness_witness :
    ("aaaaaaaa-aaaa-4aaa-8aaa-aaaaaaaaaaaa" : String).length =
      ("bbbbbbbb-bbbb-4bbb-8bbb-bbbbbbbbbbbb" : String).length ∧
    ("aaaaaaaa-aaaa-4aaa-8aaa-aaaaaaaaaaaa" : String) ≠
      "bbbbbbbb-bbbb-4bbb-8bbb-bbbbbbbbbbbb" ∧
    appDirPath (sanitizeFilename "My App") "aaaaaaaa-aaaa-4aaa-8aaa-aaaaaaaaaaaa" ≠
      appDirPath (sanitizeFilename "My App") "bbbbbbbb-bbbb-4bbb-8bbb-bbbbbbbbbbbb" :=
  ⟨by decide, by decide,
   (workspace_naming_and_uniqueness
      ⟨some "My App", some "https://example.com"⟩
      ⟨some "My App", some "https://example.com"⟩
      ⟨"aaaaaaaa-aaaa-4aaa-8aaa-aaaaaaaaaaaa", .success "<p>hi</p>", none, true, true⟩
      ⟨"bbbbbbbb-bbbb-4bbb-8bbb-bbbbbbbbbbbb", .success "<p>hi</p>", none, true, true⟩
      (by decide) (by decide) (by decide) (by decide)).2.2.1⟩

/-- C8: the synthesized markup document contains the captured markup
verbatim inside the app-content container, and references the manifest,
the stylesheet and the bootstrap script. -/
theorem indexHtml_embeds_content_and_references (appName content : String) :
    (containerOpen ++ content ++ containerClose).data <:+:
      (indexHtml appName content).data ∧
    manifestLinkTag.data <:+: (indexHtml appName content).data ∧
    stylesheetLinkTag.data <:+: (indexHtml appName content).data ∧
    appScriptTag.data <:+: (indexHtml appName content).data := by
  refine ⟨⟨(htmlDocA ++ appName ++ "</title>\n    " ++ manifestLinkTag ++
        "\n    <meta name=\"theme-color\" content=\"#000000\">\n    " ++
        stylesheetLinkTag ++ "\n</head>\n<body>\n    ").data,
      ("\n    " ++ appScriptTag ++ "\n</body>\n</html>").data, ?_⟩,
    ⟨(htmlDocA ++ appName ++ "</title>\n    ").data,
      ("\n    <meta name=\"theme-color\" content=\"#000000\">\n    " ++
        stylesheetLinkTag ++ "\n</head>\n<body>\n    " ++ containerOpen ++
        content ++ htmlDocC).data, ?_⟩,
    ⟨(htmlDocA ++ appName ++ "</title>\n    " ++ manifestLinkTag ++
        "\n    <meta name=\"theme-color\" content=\"#000000\">\n    ").data,
      ("\n</head>\n<body>\n    " ++ containerOpen ++ content ++ htmlDocC).data, ?_⟩,
    ⟨(htmlDocA ++ appName ++ htmlDocB ++ content ++ containerClose ++
        "\n    ").data, ("\n</body>\n</html>" : String).data, ?_⟩⟩ <;>
  simp [indexHtml, htmlDocB_split, htmlDocC_split, List.append_assoc]

/-- C1 counterexample: a request whose capture stage fails after the
workspace directory was created ends with the workspace directory still on
disk — the catch block performs no cleanup. -/
theorem cleanup_missing_on_capture_failure_cex :
    (handleGenerateApp ⟨some "My App", some "https://example.com"⟩
        ⟨"u1", .navigationError, none, true, true⟩).leftoverDirs =
      ["/srv/webapp/generated-apps/My App-u1"] ∧
    (handleGenerateApp ⟨some "My App", some "https://example.com"⟩
        ⟨"u1", .navigationError, none, true, true⟩).leftoverDirs ≠ [] := by
  decide

/-- C1 (amended): artifact removal runs only in the download callback:
when the pipeline reaches `res.download` (send success or send error),
neither the workspace nor the archive remains; but when the pipeline fails
earlier (capture, file-write, or archive failure), the workspace directory
is left on disk. -/
theorem cleanup_only_on_download_path (req : Request) (env : Env)
    (hv : (falsyStr req.appName || falsyStr req.websiteUrl) = false) :
    (((∃ c, env.capture = .success c) ∧ env.writeFailIdx = none ∧
        env.archiveOk = true) →
      (handleGenerateApp req env).leftoverDirs = [] ∧
      (handleGenerateApp req env).leftoverFiles = []) ∧
    ((env.capture = .navigationError ∨ env.capture = .timedOut ∨
        env.writeFailIdx ≠ none ∨ env.archiveOk = false) →
      (handleGenerateApp req env).leftoverDirs =
        [appDirPath (sanitizeFilename (req.appName.getD "")) env.uniqueId]) := by
  constructor
  · rintro ⟨⟨c, hc⟩, hw, ha⟩
    cases hs : env.sendOk <;> simp [handleGenerateApp, hv, hc, hw, ha, hs]
  · intro hfail
    cases hc : env.capture with
    | navigationError => simp [handleGenerateApp, hv, hc]
    | timedOut => simp [handleGenerateApp, hv, hc]
    | success c =>
      cases hw : env.writeFailIdx with
      | some i => simp [handleGenerateApp, hv, hc, hw]
      | none =>
        have ha : env.archiveOk = false := by
          rcases hfail with h | h | h | h
          · rw [hc] at h; exact absurd h (by simp)
          · rw [hc] at h; exact absurd h (by simp)
          · exact absurd hw h
          · exact h
        simp [handleGenerateApp, hv, hc, hw, ha]

theorem cleanup_only_on_download_path_witness :
    (falsyStr (some "My App") || falsyStr (some "https://example.com")) = false ∧
    (handleGenerateApp ⟨some "My App", some "https://example.com"⟩
        ⟨"u2", .timedOut, none, true, true⟩).leftoverDirs =
      [appDirPath (sanitizeFilename "My App") "u2"] :=
  ⟨by decide,
   (cleanup_only_on_download_path ⟨some "My App", some "https://example.com"⟩
      ⟨"u2", .timedOut, none, true, true⟩ (by decide)).2 (Or.inr (Or.inl rfl))⟩

/-- C2 counterexample: appName "//" sanitizes to the empty token, yet the
request is not rejected: the handler allocates a workspace named "-u1" and
the pipeline completes with status 200 — there is no InvalidNameError. -/
theorem empty_token_not_rejected_cex :
    sanitizeFilename "//" = "" ∧
    (handleGenerateApp ⟨some "//", some "https://example.com"⟩
        ⟨"u1", .success "<p>hi</p>", none, true, true⟩).response.status = 200 ∧
    (handleGenerateApp ⟨some "//", some "https://example.com"⟩
        ⟨"u1", .success "<p>hi</p>", none, true, true⟩).createdDirs =
      ["/srv/webapp/generated-apps/-u1"] := by
  decide

/-- C2 (amended): a request whose appName sanitizes to an empty token is
not rejected: the handler allocates a workspace whose directory name is
just "-" followed by the unique token and runs the pipeline normally
(in particular the response is never a 400). -/
theorem empty_token_allocates_workspace (req : Request) (env : Env)
    (hv : (falsyStr req.appName || falsyStr req.websiteUrl) = false)
    (hsan : sanitizeFilename (req.appName.getD "") = "") :
    (handleGenerateApp req env).createdDirs =
      [pathJoin generatedAppsDir ("-" ++ env.uniqueId)] ∧
    (handleGenerateApp req env).response.status ≠ 400 := by
  constructor
  · rw [createdDirs_eq req env hv, hsan]
    simp [appDirPath, pathJoin]
  · cases hc : env.capture <;>
      cases hw : env.writeFailIdx <;>
        cases ha : env.archiveOk <;>
          cases hs : env.sendOk <;>
            simp [handleGenerateApp, hv, hc, hw, ha, hs]

theorem empty_token_allocates_workspace_witness :
    (falsyStr (some "//") || falsyStr (some "https://example.com")) = false ∧
    sanitizeFilename "//" = "" ∧
    (handleGenerateApp ⟨some "//", some "https://example.com"⟩
        ⟨"u2", .success "<p>hi</p>", none, true, true⟩).createdDirs =
      [pathJoin generatedAppsDir ("-" ++ "u2")] :=
  ⟨by decide, by decide,
   (empty_token_allocates_workspace ⟨some "//", some "https://example.com"⟩
      ⟨"u2", .success "<p>hi</p>", none, true, true⟩ (by decide) (by decide)).1⟩

/-- C3 counterexample: when sending the archive fails, the handler answers
500 with body `{"error": "Error sending file"}`, not
`{"error": "Internal server error"}` — the caller can distinguish it. -/
theorem send_failure_distinct_body_cex :
    (handleGenerateApp ⟨some "My App", some "https://example.com"⟩
        ⟨"u1", .success "<p>hi</p>", none, true, false⟩).response =
      ⟨500, .jsonError "Error sending file"⟩ ∧
    (handleGenerateApp ⟨some "My App", some "https://example.com"⟩
        ⟨"u1", .success "<p>hi</p>", none, true, false⟩).response ≠
      ⟨500, .jsonError "Internal server error"⟩ := by
  decide

/-- C3 (amended): capture, synthesis and archive failures all produce
status 500 with body `{"error": "Internal server error"}`; a failure while
sending the file instead produces status 500 with body
`{"error": "Error sending file"}`. -/
theorem error_responses_by_stage (req : Request) (env : Env)
    (hv : (falsyStr req.appName || falsyStr req.websiteUrl) = false) :
    ((env.capture = .navigationError ∨ env.capture = .timedOut ∨
        env.writeFailIdx ≠ none ∨ env.archiveOk = false) →
      (handleGenerateApp req env).response =
        ⟨500, .jsonError "Internal server error"⟩) ∧
    (((∃ c, env.capture = .success c) ∧ env.writeFailIdx = none ∧
        env.archiveOk = true ∧ env.sendOk = false) →
      (handleGenerateApp req env).response =
        ⟨500, .jsonError "Error sending file"⟩) := by
  constructor
  · intro hfail
    cases hc : env.capture with
    | navigationError => simp [handleGenerateApp, hv, hc]
    | timedOut => simp [handleGenerateApp, hv, hc]
    | success c =>
      cases hw : env.writeFailIdx with
      | some i => simp [handleGenerateApp, hv, hc, hw]
      | none =>
        have ha : env.archiveOk = false := by
          rcases hfail with h | h | h | h
          · rw [hc] at h; exact absurd h (by simp)
          · rw [hc] at h; exact absurd h (by simp)
          · exact absurd hw h
          · exact h
        simp [handleGenerateApp, hv, hc, hw, ha]
  · rintro ⟨⟨c, hc⟩, hw, ha, hs⟩
    simp [handleGenerateApp, hv, hc, hw, ha, hs]

theorem error_responses_by_stage_witness :
    (falsyStr (some "My App") || falsyStr (some "https://example.com")) = false ∧
    (handleGenerateApp ⟨some "My App", some "https://example.com"⟩
        ⟨"u3", .navigationError, none, true, true⟩).response =
      ⟨500, .jsonError "Internal server error"⟩ :=
  ⟨by decide,
   (error_responses_by_stage ⟨some "My App", some "https://example.com"⟩
      ⟨"u3", .navigationError, none, true, true⟩ (by decide)).1 (Or.inl rfl)⟩

end Webapp
